import Mathlib

/-!
Verification of the card/record layer of the MontePy snapshot: the shallow
embedding below translates `mcnpy/mcnp_card.py`, `mcnpy/data_inputs/material.py`,
`mcnpy/data_inputs/lattice_input.py` and `montepy/numbered_mcnp_object.py`
into Lean definitions, and the theorems settle the specification claims
about them.
-/

set_option autoImplicit false

/-- Exception taxonomy.  The constructors mirror the exception classes raised
by the translated sources (`TypeError`, `ValueError`, `NumberConflictError`,
`MalformedInputError`, `IllegalState`, Python `AttributeError` and
`StopIteration`); `redundantDefinitionError` is the `RedundantDefinitionError`
named by the specification error taxonomy (the `mcnpy.errors` module itself is
not part of the sources). -/
inductive PyError where
  | typeError (msg : String)
  | valueError (msg : String)
  | numberConflictError
  | malformedInputError (msg : String)
  | redundantDefinitionError
  | illegalState (msg : String)
  | attributeError (msg : String)
  | stopIteration
  deriving DecidableEq

/-- Modelled from the spec: the `Comment` class lives in
`mcnpy/input_parser/mcnp_input.py`, which is not part of the sources.  Per the
specification a comment serializes verbatim to its stored lines for every
format version, a cutting comment is one that was cut out of the middle of a
card, and `card_line` is the index of the input line the comment preceded. -/
structure Comment where
  lines : List String
  is_cutting_comment : Bool
  card_line : Nat
  deriving DecidableEq

/-- Modelled from the spec: `Comment.format_for_mcnp_input` replays the stored
comment lines verbatim for every format version. -/
def Comment.format_for_mcnp_input (c : Comment) (_mcnp_version : Nat × Nat) :
    List String :=
  c.lines

/-- State of an `MCNP_Card` relevant to serialization: the raw input lines read
from the file, the attached comments, and the mutation flag
(`mcnpy/mcnp_card.py`, `MCNP_Card.__init__`). -/
structure CardData where
  input_lines : List String
  comments : List Comment
  mutated : Bool
  deriving DecidableEq

/-- Lookup in the `comments_dict` built by `_format_for_mcnp_unmutated`: the
dictionary maps `comment.card_line` to the comment for every cutting comment,
later insertions overwriting earlier ones, so the entry for index `i` is the
last cutting comment whose `card_line` equals `i`. -/
def cuttingCommentAt (comments : List Comment) (i : Nat) : Option Comment :=
  (comments.filter (fun c => c.is_cutting_comment && c.card_line == i)).getLast?

/-- Translation of `MCNP_Card._format_for_mcnp_unmutated`
(`mcnpy/mcnp_card.py` lines 57-80): when any comments are attached the first
one is emitted up front, then the input lines are replayed in order, the entry
of `comments_dict` for index `i` being emitted just before input line `i`. -/
def formatForMcnpUnmutated (card : CardData) (mcnp_version : Nat × Nat) :
    List String :=
  (match card.comments with
   | [] => []
   | c :: _ => c.format_for_mcnp_input mcnp_version) ++
  card.input_lines.enum.flatMap (fun p =>
    (match cuttingCommentAt card.comments p.1 with
     | some c => c.format_for_mcnp_input mcnp_version
     | none => []) ++ [p.2])

/-- Claimed output of the unmutated path, written from the claim text: exactly
the original stored input lines, in order, with each cutting comment
re-inserted immediately before the input line whose index equals that
`card_line` of that comment. -/
def claimedUnmutatedOutput (card : CardData) (mcnp_version : Nat × Nat) :
    List String :=
  card.input_lines.enum.flatMap (fun p =>
    ((card.comments.filter (fun c => c.is_cutting_comment && c.card_line == p.1)).flatMap
      (fun c => c.format_for_mcnp_input mcnp_version)) ++ [p.2])

/-- Amended description of the unmutated path, computed by line index: the
lines of the (attached-last) cutting comment for index `i` stand immediately
before input line `i`. -/
def codeUnmutatedByIndex (card : CardData) (mcnp_version : Nat × Nat) :
    List String :=
  (match card.comments with
   | [] => []
   | c :: _ => c.format_for_mcnp_input mcnp_version) ++
  (List.range card.input_lines.length).flatMap (fun i =>
    (match cuttingCommentAt card.comments i with
     | some c => c.format_for_mcnp_input mcnp_version
     | none => []) ++ [card.input_lines.getD i ""])

/-- Scan of the number sequence used by the clone protocol: probe `start`,
then `start + step`, and so on, committing the first value not held in
`taken`.  Fuel-based so that the definition is structural; `taken.length + 1`
probes always suffice when `step` is at least 1, because every failed probe
consumes a distinct member of `taken`. -/
def scanFree (fuel : Nat) (taken : List Nat) (start step : Nat) : Nat :=
  match fuel with
  | 0 => start
  | Nat.succ f => if start ∈ taken then scanFree f taken (start + step) step else start

/-- Modelled from the spec: `requestNumber(start, step)` of the owning
collection (the collection classes are not part of the sources) scans
`start, start + step, start + 2 * step, ...` and returns the first value not
currently held by a live entity. -/
def requestNumber (taken : List Nat) (start step : Nat) : Nat :=
  scanFree (taken.length + 1) taken start step

/-- Number committed by `Numbered_MCNP_Object.clone`
(`montepy/numbered_mcnp_object.py` lines 31-55).  When a problem is attached,
`request_number(starting_number, step)` is assigned first, but the following
retry loop runs unconditionally and overwrites it: the loop iterates
`itertools.count(starting_number, step=1)` — stepping by 1 regardless of the
`step` argument — assigning each probe to the clone until the number setter
stops raising `NumberConflictError` (which it raises exactly for numbers held
in the registry). -/
def cloneNumber (taken : List Nat) (hasProblem : Bool) (start step : Nat) :
    Nat :=
  let requested := if hasProblem then requestNumber taken start step else 0
  let _ := requested
  scanFree (taken.length + 1) taken start 1

/-- Indentation string of a given width. -/
def spaces (n : Nat) : String :=
  String.mk (List.replicate n ' ')

/-- Greedy word-wrap used to model `textwrap.TextWrapper.wrap` for a positive
width: words are packed onto the current line while the line (indent included)
stays within `width`, and each continuation line begins with `subIndent`
spaces.  The model covers inputs whose words are single-space separated and no
longer than the usable width, where the Python wrapper neither merges
whitespace nor breaks inside a word. -/
def greedyWrapAux (width subIndent : Nat) : List String → String → List String
  | [], cur => [cur]
  | w :: ws, cur =>
    if cur.length + 1 + w.length ≤ width then
      greedyWrapAux width subIndent ws (cur ++ " " ++ w)
    else
      cur :: greedyWrapAux width subIndent ws (spaces subIndent ++ w)

/-- Split of a string into its maximal space-free words, modelling the
chunking the Python wrapper applies to space-separated input. -/
def splitWordsAux : List Char → List Char → List String
  | [], [] => []
  | [], cur => [String.mk cur.reverse]
  | c :: cs, cur =>
    if c = ' ' then
      (match cur with
       | [] => splitWordsAux cs []
       | _ => String.mk cur.reverse :: splitWordsAux cs [])
    else splitWordsAux cs (c :: cur)

/-- Words of a string. -/
def splitWords (s : String) : List String :=
  splitWordsAux s.data []

/-- Model of `textwrap.TextWrapper(width, initial_indent, subsequent_indent).wrap`:
a non-positive width raises `ValueError` (`textwrap._wrap_chunks` checks
`self.width <= 0` before anything else), an all-whitespace string yields no
lines, and otherwise the words are packed greedily. -/
def textwrapWrap (width initialIndent subIndent : Nat) (s : String) :
    Except PyError (List String) :=
  if width = 0 then
    Except.error (PyError.valueError
      ("invalid width " ++ toString width ++ " (must be > 0)"))
  else
    match splitWords s with
    | [] => Except.ok []
    | w :: ws => Except.ok (greedyWrapAux width subIndent ws (spaces initialIndent ++ w))

/-- Translation of `MCNP_Card.wrap_string_for_mcnp`
(`mcnpy/mcnp_card.py` lines 137-169): `line_length` and `indent_length` start
at 0 and are set to 128 and 5 only when the first two components of the
version tuple equal `(6, 2)`; the first line is indented by `indent_length`
unless `is_first_line` is true, and the string is handed to `textwrap`. -/
def wrap_string_for_mcnp (s : String) (mcnp_version : Nat × Nat)
    (is_first_line : Bool) : Except PyError (List String) :=
  let line_length := if mcnp_version = (6, 2) then 128 else 0
  let indent_length := if mcnp_version = (6, 2) then 5 else 0
  let initial_indent := if is_first_line then 0 else indent_length
  textwrapWrap line_length initial_indent indent_length s

/-- Translation of `LatticeInput.merge` (`mcnpy/data_inputs/lattice_input.py`
lines 129-132): it unconditionally raises
`MalformedInputError(other, "Cannot have two lattice inputs for the problem")`.
The `other` record is carried only as the context object of the Python
exception and is elided from the error value. -/
def LatticeInput.merge (_other : String) : Except PyError Unit :=
  Except.error
    (PyError.malformedInputError "Cannot have two lattice inputs for the problem")

/-- Entry of the parsed `LAT` aggregate list: a concrete lattice value or a
`Jump` placeholder. -/
inductive LatSlot where
  | value (v : Nat)
  | jump
  deriving DecidableEq

/-- Tail of the pairwise walk of
`itertools.zip_longest(cells, lattice, fillvalue=None)` inside
`LatticeInput.push_to_cells` once the cell list is exhausted: a `Jump` entry is
skipped, while a concrete entry paired with the `None` fill triggers the
Python `AttributeError` of assigning an attribute on `None`. -/
def pushSurplus : List LatSlot → Except PyError (List (Option Nat))
  | [] => Except.ok []
  | l :: ls =>
    match l with
    | LatSlot.jump => pushSurplus ls
    | LatSlot.value _ =>
      Except.error (PyError.attributeError "NoneType object has no attribute lattice")

/-- Main walk of the pairing: every cell is visited, its paired lattice entry
(`None` once the lattice list is exhausted) deciding its new value, and any
surplus lattice entries are walked by `pushSurplus`. -/
def pushPairs : List (Option Nat) → List LatSlot → Except PyError (List (Option Nat))
  | [], ls => pushSurplus ls
  | c :: cs, [] => (fun r => c :: r) <$> pushPairs cs []
  | c :: cs, l :: ls =>
    match l with
    | LatSlot.jump => (fun r => c :: r) <$> pushPairs cs ls
    | LatSlot.value v => (fun r => some v :: r) <$> pushPairs cs ls

/-- Translation of `LatticeInput.push_to_cells`
(`mcnpy/data_inputs/lattice_input.py` lines 117-127) restricted to the data it
touches: the cell list carries the current lattice value of each cell.  Nothing
happens without an attached problem, in the cell block, or when the parsed
lattice list is empty (`if self._lattice:` is false for an empty list); the
redundancy check performed first lives in `CellModifierInput`, outside these
sources, and is the subject of the merge claim. -/
def push_to_cells (hasProblem in_cell_block : Bool) (cells : List (Option Nat))
    (lattice : List LatSlot) : Except PyError (List (Option Nat)) :=
  if hasProblem && !in_cell_block then
    if lattice.isEmpty then Except.ok cells
    else pushPairs cells lattice
  else Except.ok cells

/-- Positional pairing described by the claim, as a recursion on both lists:
each cell paired with a concrete value receives it, a cell paired with a
placeholder or with nothing keeps its value, and surplus lattice entries are
dropped. -/
def pushedSpec : List (Option Nat) → List LatSlot → List (Option Nat)
  | [], _ => []
  | c :: cs, [] => c :: pushedSpec cs []
  | c :: cs, l :: ls =>
    (match l with
     | LatSlot.value v => some v
     | LatSlot.jump => c) :: pushedSpec cs ls

/-- State of a `Material` (`mcnpy/data_inputs/material.py`).  Components model
the insertion-ordered `_material_components` dict as an association list from
the isotope identity (its string form, by which the hash reads it) to the
stored fraction. -/
structure Material where
  number : Int
  old_number : Int
  is_atom_fraction : Bool
  parameter_string : String
  components : List (String × Rat)
  thermal_scattering : Option (List String)
  mutated : Bool
  input_lines : List String
  comments : List Comment
  deriving DecidableEq

/-- Argument handed to the `Material.number` setter: a Python `int` or a value
of any other type. -/
inductive PyValue where
  | int (n : Int)
  | nonInt (descr : String)
  deriving DecidableEq

/-- Modelled from the spec: `check_number` of the materials collection (not
part of the sources) fails with `NumberConflictError` when any live material
already holds the number. -/
def check_number (taken : List Int) (n : Int) : Option PyError :=
  if taken.contains n then some PyError.numberConflictError else none

/-- Translation of the `Material.number` setter
(`mcnpy/data_inputs/material.py` lines 109-118), statement by statement: the
type check, then the positivity check, then (only with an attached problem)
the registry conflict check, and only after all three the assignments
`self._mutated = True` and `self._material_number = number`.  The returned
pair is the object state after the call together with the raised error, if
any. -/
def Material.setNumber (m : Material) (hasProblem : Bool) (taken : List Int)
    (arg : PyValue) : Material × Option PyError :=
  match arg with
  | PyValue.nonInt _ => (m, some (PyError.typeError "number must be an int"))
  | PyValue.int n =>
    if n ≤ 0 then (m, some (PyError.valueError "number must be > 0"))
    else
      match (if hasProblem then check_number taken n else none) with
      | some e => (m, some e)
      | none => ({ m with mutated := true, number := n }, none)

/-- Translation of `Material.validate` (`mcnpy/data_inputs/material.py` lines
246-250): a material with an empty component mapping is in an illegal state. -/
def Material.validate (m : Material) : Option PyError :=
  if m.components.length = 0 then
    some (PyError.illegalState
      ("Material: " ++ toString m.number ++ " does not have any components defined."))
  else none

/-- Insertion sort of components by isotope key, modelling Python
`sorted(list(self.material_components.keys()))` together with the dict lookup
that follows (keys of a dict are unique, so the sort is total on them). -/
def insertSortedComp (p : String × Rat) :
    List (String × Rat) → List (String × Rat)
  | [] => [p]
  | q :: qs => if p.1 ≤ q.1 then p :: q :: qs else q :: insertSortedComp p qs

/-- Components sorted by isotope key. -/
def sortComps : List (String × Rat) → List (String × Rat)
  | [] => []
  | p :: ps => insertSortedComp p (sortComps ps)

/-- Left padding to a field width, modelling Python right-aligned formatting. -/
def padLeft (s : String) (w : Nat) : String :=
  spaces (w - s.length) ++ s

/-- Right padding to a field width, modelling Python left-aligned formatting. -/
def padRight (s : String) (w : Nat) : String :=
  s ++ spaces (w - s.length)

/-- Rendering of a stored fraction.  Python formats it with `%11.4g`; the
model renders the exact rational, which stands in for the 4-significant-digit
form (no theorem below depends on the digits produced). -/
def renderFraction (q : Rat) : String :=
  toString q

/-- Regenerated body lines of a mutated material
(`mcnpy/data_inputs/material.py` lines 256-266): the header line carries the
material number and the first sorted component, and each further sorted
component gets a continuation line. -/
def materialRegenLines (m : Material) : List String :=
  match sortComps m.components with
  | [] => []
  | (iso, frac) :: rest =>
    ("m" ++ padRight (toString m.number) 8 ++ " " ++ padLeft iso 8 ++ " "
        ++ padLeft (renderFraction frac) 11)
      :: rest.map (fun p =>
        padLeft p.1 18 ++ " " ++ padLeft (renderFraction p.2) 11)

/-- Translation of the abstract `MCNP_Card.format_for_mcnp_input` body
(`mcnpy/mcnp_card.py` lines 48-55): an unmutated card emits only the first
comment, a mutated one emits every comment. -/
def cardBaseFormat (comments : List Comment) (mutated : Bool)
    (mcnp_version : Nat × Nat) : List String :=
  match comments with
  | [] => []
  | c :: _ =>
    if mutated then comments.flatMap (fun cm => cm.format_for_mcnp_input mcnp_version)
    else c.format_for_mcnp_input mcnp_version

/-- Translation of `Material.format_for_mcnp_input`
(`mcnpy/data_inputs/material.py` lines 252-271): `validate` runs first and its
error propagates; a mutated material appends the regenerated lines to the base
comment block, an unmutated one replaces everything with the verbatim replay;
the thermal-scattering lines, if any, are appended at the end. -/
def Material.format_for_mcnp_input (m : Material) (mcnp_version : Nat × Nat) :
    Except PyError (List String) :=
  match m.validate with
  | some e => Except.error e
  | none =>
    let base := cardBaseFormat m.comments m.mutated mcnp_version
    let ret :=
      if m.mutated then base ++ materialRegenLines m
      else formatForMcnpUnmutated ⟨m.input_lines, m.comments, m.mutated⟩ mcnp_version
    Except.ok (ret ++ (match m.thermal_scattering with
      | some ls => ls
      | none => []))

/-- Encoding of a string as a natural number, standing in for the Python
string hash fed to `hash()`. -/
def strEnc (s : String) : Nat :=
  s.data.foldl (fun h c => h * 1000003 + c.toNat) 7

/-- Encoding of a rational as a natural number, standing in for the Python
float hash. -/
def ratEnc (q : Rat) : Nat :=
  Nat.pair q.num.natAbs (Nat.pair (if q.num < 0 then 1 else 0) q.den)

/-- Encoding of an integer as a natural number. -/
def intEnc (n : Int) : Nat :=
  Nat.pair n.natAbs (if n < 0 then 1 else 0)

/-- One chaining step of `Material.__hash__`: `temp_hash` is rehashed together
with the isotope string and the stored fraction. -/
def pyHashStep (h : Nat) (iso : String) (q : Rat) : Nat :=
  Nat.pair h (Nat.pair (strEnc iso) (ratEnc q))

/-- Translation of `Material.__hash__` (`mcnpy/data_inputs/material.py` lines
273-287): the components are visited in sorted key order, each folded into the
running hash, and the result is hashed together with the current number.  The
Python `hash()` primitive is modelled by the pairing encodings above; no other
field of the material is read. -/
def Material.pyHash (m : Material) : Nat :=
  Nat.pair ((sortComps m.components).foldl (fun h p => pyHashStep h p.1 p.2) 0)
    (intEnc m.number)

/-- Translation of `Material.__eq__` (`mcnpy/data_inputs/material.py` lines
289-290): two materials are equal exactly when their hashes are. -/
def Material.pyEq (a b : Material) : Bool :=
  a.pyHash == b.pyHash

/-- Modelled from the spec: `Isotope` and `fortran_float` are external
collaborators (physics-specific leaf data, out of the specified core).  A raw
word of the material card is abstracted by its text together with the outcome
of `Isotope(word)` (`some` identity when it parses, `none` when it raises
`MalformedInputError`) and of `fortran_float(word)` (`some` value when it
parses, `none` when it raises `ValueError`). -/
structure Word where
  text : String
  asIsotope : Option String
  asFloat : Option Rat
  deriving DecidableEq

/-- Update of the insertion-ordered `_material_components` dict:
`self._material_components[isotope] = MaterialComponent(isotope, abs(fraction))`
replaces the value in place when the key exists and appends otherwise. -/
def insertComp : List (String × Rat) → String → Rat → List (String × Rat)
  | [], iso, q => [(iso, q)]
  | p :: ps, iso, q =>
    if p.1 = iso then (iso, q) :: ps else p :: insertComp ps iso q

/-- Text of the remaining words joined by single spaces, as
`" ".join(itertools.chain([isotope_str], words_iter))` does when the parse
falls back to the parameter string. -/
def joinWords (ws : List Word) : String :=
  String.intercalate " " (ws.map Word.text)

/-- Translation of the component-parsing loop of `Material.__init__`
(`mcnpy/data_inputs/material.py` lines 33-68).  The state is the not-yet
consumed words, the atom-fraction flag (`none` until the first fraction sets
it), the components parsed so far and the parameter string.  A word that is
not an isotope sends the whole remainder to the parameter string and stops; an
isotope must be followed by a word (`next` on an exhausted iterator escapes as
`StopIteration`) that parses as a fraction, else
`MalformedInputError` is raised; the first fraction fixes the convention to
atom exactly when it is strictly positive, and a later fraction strictly on
the opposite side of zero raises `MalformedInputError`; the component is
stored with the absolute value of the fraction. -/
def parseComponentsAux : List Word → Option Bool → List (String × Rat) → String →
    Except PyError (List (String × Rat) × Option Bool × String)
  | [], atomFlag, comps, ps => Except.ok (comps, atomFlag, ps)
  | w :: rest, atomFlag, comps, ps =>
    match w.asIsotope with
    | none => Except.ok (comps, atomFlag, ps ++ joinWords (w :: rest))
    | some iso =>
      match rest with
      | [] => Except.error PyError.stopIteration
      | f :: rest2 =>
        match f.asFloat with
        | none =>
          Except.error (PyError.malformedInputError
            (f.text ++ " could not be parsed as a material fraction"))
        | some q =>
          match atomFlag with
          | none =>
            parseComponentsAux rest2 (some (decide (0 < q)))
              (insertComp comps iso |q|) ps
          | some b =>
            if (0 < q ∧ b = false) ∨ (q < 0 ∧ b = true) then
              Except.error (PyError.malformedInputError
                "Material definitons cannot use atom and mass fraction at the same time")
            else
              parseComponentsAux rest2 (some b) (insertComp comps iso |q|) ps

/-- Component parse of a material card: the words after the card name are fed
to the loop with no convention fixed, no components and an empty parameter
string. -/
def parseMaterialComponents (ws : List Word) :
    Except PyError (List (String × Rat) × Option Bool × String) :=
  parseComponentsAux ws none [] ""

/-- Word whose text parses as an isotope and not as a fraction. -/
def mkIso (s : String) : Word :=
  ⟨s, some s, none⟩

/-- Word whose text parses as a fraction and not as an isotope. -/
def mkNum (q : Rat) : Word :=
  ⟨toString q, none, some q⟩

/-- Sample material with one component, used to instantiate the setter and
hashing theorems. -/
def sampleMaterial : Material :=
  ⟨1, 1, true, "", [("1001", 1)], none, false, ["m1  1001  1.0"], []⟩

/-- Sample material with an empty component mapping. -/
def emptyMaterial : Material :=
  ⟨7, 7, true, "", [], none, false, [], []⟩

theorem pushedSpec_nil_lattice (cells : List (Option Nat)) :
    pushedSpec cells [] = cells := by
  induction cells with
  | nil => rfl
  | cons c cs ih => simp [pushedSpec, ih]

/-- Rewriting of an indexed `flatMap` over `enumFrom` as a `flatMap` over the
index range, used to relate the two formulations of the verbatim replay. -/
theorem enumFrom_flatMap_range (l : List String) :
    ∀ (n : Nat) (g : Nat → String → List String),
      (l.enumFrom n).flatMap (fun p => g p.1 p.2)
        = (List.range l.length).flatMap (fun i => g (n + i) (l.getD i "")) := by
  induction l with
  | nil => intro n g; rfl
  | cons a t ih =>
    intro n g
    rw [List.enumFrom, List.flatMap_cons, List.length_cons, List.range_succ_eq_map,
      List.flatMap_cons, ih (n + 1) g]
    simp only [List.flatMap_map, Function.comp, List.getD_cons_zero,
      List.getD_cons_succ, Nat.add_zero]
    have he : (fun i => g (n + 1 + i) (t.getD i ""))
        = (fun i : Nat => g (n + i.succ) (t.getD i "")) := by
      funext i
      congr 1
      omega
    rw [he]

/-- Claim C1 (amended): for every record never mutated after parse, the
verbatim serialization path returns the formatted lines of the first attached
comment (when any comments are attached), followed by the original stored
input lines in order with, immediately before the input line of index `i`,
the lines of the last cutting comment whose `card_line` equals `i`; cutting
comments whose `card_line` is not the index of any input line are dropped.
This holds for every format-version pair. -/
theorem c1_unmutated_replay (card : CardData) (v : Nat × Nat)
    (_h : card.mutated = false) :
    formatForMcnpUnmutated card v = codeUnmutatedByIndex card v := by
  unfold formatForMcnpUnmutated codeUnmutatedByIndex
  congr 1
  have hmain := enumFrom_flatMap_range card.input_lines 0
    (fun i s => (match cuttingCommentAt card.comments i with
      | some c => c.format_for_mcnp_input v
      | none => []) ++ [s])
  simpa [List.enum] using hmain

/-- Claim C1, counterexample: an unmutated card with a single attached
non-cutting comment serializes to the lines of that comment followed by the
input lines, not to exactly the input lines with cutting comments
re-inserted as the claim states. -/
theorem c1_unmutated_replay_counterexample :
    (⟨["a"], [⟨["c hello"], false, 0⟩], false⟩ : CardData).mutated = false
    ∧ formatForMcnpUnmutated ⟨["a"], [⟨["c hello"], false, 0⟩], false⟩ (6, 2)
        ≠ claimedUnmutatedOutput ⟨["a"], [⟨["c hello"], false, 0⟩], false⟩ (6, 2) :=
  ⟨rfl, by decide⟩

/-- Claim C1, witness: the amended statement evaluated on an unmutated card
with a leading comment and one cutting comment. -/
theorem c1_unmutated_replay_witness :
    (⟨["a", "b"], [⟨["c first"], false, 0⟩, ⟨["c cut"], true, 1⟩], false⟩ : CardData).mutated
        = false
    ∧ formatForMcnpUnmutated
        ⟨["a", "b"], [⟨["c first"], false, 0⟩, ⟨["c cut"], true, 1⟩], false⟩ (6, 2)
      = codeUnmutatedByIndex
        ⟨["a", "b"], [⟨["c first"], false, 0⟩, ⟨["c cut"], true, 1⟩], false⟩ (6, 2) :=
  ⟨rfl, c1_unmutated_replay
    ⟨["a", "b"], [⟨["c first"], false, 0⟩, ⟨["c cut"], true, 1⟩], false⟩ (6, 2) rfl⟩

/-- Claim C2: evaluation of the clone number assignment.  With registry
`{1}`, `startingNumber = 1` and `step = 2`, the claimed scan over
`1, 3, 5, ...` (the spec-modelled `requestNumber`) yields 3, but the code
commits 2, because its retry loop steps by 1 regardless of the `step`
argument; indeed the committed number is independent of `step` altogether.
The concrete `{1,2,3}` scenario of the claim does yield 4. -/
theorem c2_clone_step_eval :
    cloneNumber [1] true 1 2 = 2
    ∧ requestNumber [1] 1 2 = 3
    ∧ cloneNumber [1, 2, 3] true 1 1 = 4
    ∧ ∀ (taken : List Nat) (hp : Bool) (start s1 s2 : Nat),
        cloneNumber taken hp start s1 = cloneNumber taken hp start s2 :=
  ⟨by decide, by decide, by decide, fun _ _ _ _ _ => rfl⟩

/-- Claim C3: evaluation of the wrapping routine.  For any version pair other
than `(6, 2)` the width is left at 0 and the wrapper raises
`ValueError ("invalid width 0 (must be > 0)")` instead of wrapping to a
narrower width with a 5-space indent as the claim states; for `(6, 2)` the
first line is unindented and a continuation line gets the 5-space indent. -/
theorem c3_wrap_version_eval :
    wrap_string_for_mcnp "1 2" (6, 1) true
      = Except.error (PyError.valueError "invalid width 0 (must be > 0)")
    ∧ wrap_string_for_mcnp "1 2" (6, 0) false
      = Except.error (PyError.valueError "invalid width 0 (must be > 0)")
    ∧ wrap_string_for_mcnp "1 2" (6, 2) true = Except.ok ["1 2"]
    ∧ wrap_string_for_mcnp "1 2" (6, 2) false = Except.ok ["     1 2"] :=
  ⟨rfl, rfl, rfl, rfl⟩

/-- Claim C4, counterexample: merging a second `LAT` aggregate input fails
with `MalformedInputError`, not with the `RedundantDefinitionError` the claim
names. -/
theorem c4_merge_redundant_counterexample :
    LatticeInput.merge "lat 1 2"
      = Except.error
          (PyError.malformedInputError "Cannot have two lattice inputs for the problem")
    ∧ LatticeInput.merge "lat 1 2" ≠ Except.error PyError.redundantDefinitionError :=
  ⟨rfl, by intro hc; cases hc⟩

/-- Claim C4 (amended): merging a second aggregate `LAT` record always fails,
with `MalformedInputError ("Cannot have two lattice inputs for the problem")`. -/
theorem c4_merge_malformed (other : String) :
    LatticeInput.merge other
      = Except.error
          (PyError.malformedInputError "Cannot have two lattice inputs for the problem") :=
  rfl

/-- Claim C5 (amended): when every aggregate entry beyond the entity count is
a placeholder, `push_to_cells` pairs entities and entries positionally:
entities paired with a concrete value receive it, placeholder slots leave the
paired entity unchanged, entities beyond the list receive no value, and no
error is raised.  (A concrete value beyond the entity count instead raises an
error, per the counterexample.) -/
theorem c5_push_positional (cells : List (Option Nat)) (lattice : List LatSlot)
    (h : ∀ s ∈ lattice.drop cells.length, s = LatSlot.jump) :
    push_to_cells true false cells lattice = Except.ok (pushedSpec cells lattice) := by
  have main : ∀ (cs : List (Option Nat)) (ls : List LatSlot),
      (∀ s ∈ ls.drop cs.length, s = LatSlot.jump) →
      pushPairs cs ls = Except.ok (pushedSpec cs ls) := by
    intro cs
    induction cs with
    | nil =>
      intro ls hl
      simp only [List.length_nil, List.drop_zero] at hl
      induction ls with
      | nil => rfl
      | cons l ls ihl =>
        have := hl l (List.mem_cons_self l ls)
        subst this
        simp only [pushPairs, pushSurplus, pushedSpec]
        exact ihl (fun s hs => hl s (List.mem_cons_of_mem _ hs))
    | cons c cs ih =>
      intro ls hl
      cases ls with
      | nil =>
        simp [pushPairs, pushedSpec, ih [] (by simp)]
      | cons l ls =>
        have hl2 : ∀ s ∈ ls.drop cs.length, s = LatSlot.jump := by
          intro s hs
          exact hl s (by simpa [List.drop_succ_cons] using hs)
        cases l with
        | jump => simp [pushPairs, pushedSpec, ih ls hl2]
        | value v => simp [pushPairs, pushedSpec, ih ls hl2]
  by_cases he : lattice.isEmpty
  · have : lattice = [] := List.isEmpty_iff.mp he
    subst this
    simp [push_to_cells, pushedSpec_nil_lattice]
  · simp only [push_to_cells, Bool.and_self, Bool.not_false, if_true, he, if_false,
      Bool.false_eq_true]
    exact main cells lattice h

/-- Claim C5, counterexample: a concrete aggregate entry beyond the entity
count is not ignored; the pairing raises the `AttributeError` of assigning to
`None`, contradicting the claim that the operation never raises regardless of
the length mismatch. -/
theorem c5_push_counterexample :
    push_to_cells true false [] [LatSlot.value 1]
      = Except.error (PyError.attributeError "NoneType object has no attribute lattice") :=
  rfl

/-- Claim C5, witness: the amended statement evaluated on three cells and a
shorter aggregate list. -/
theorem c5_push_witness :
    (∀ s ∈ ([LatSlot.value 2, LatSlot.jump].drop
        ([none, some 1, none] : List (Option Nat)).length), s = LatSlot.jump)
    ∧ push_to_cells true false [none, some 1, none] [LatSlot.value 2, LatSlot.jump]
        = Except.ok [some 2, some 1, none] :=
  ⟨by decide,
   c5_push_positional [none, some 1, none] [LatSlot.value 2, LatSlot.jump] (by decide)⟩

/-- Claim C6: the `Material.number` setter rejects a non-int argument with
`TypeError`, a non-positive int with `ValueError`, and a number already held
in the registry with `NumberConflictError`, and in every error case the
returned object state is exactly the state before the call (number and
mutated flag untouched); only a valid, conflict-free assignment updates the
number and sets the mutated flag. -/
theorem c6_setter_atomic (m : Material) (hp : Bool) (taken : List Int) :
    (∀ d, Material.setNumber m hp taken (PyValue.nonInt d)
        = (m, some (PyError.typeError "number must be an int")))
    ∧ (∀ n : Int, n ≤ 0 → Material.setNumber m hp taken (PyValue.int n)
        = (m, some (PyError.valueError "number must be > 0")))
    ∧ (∀ n : Int, 0 < n → hp = true → taken.contains n = true →
        Material.setNumber m hp taken (PyValue.int n)
          = (m, some PyError.numberConflictError))
    ∧ (∀ n : Int, 0 < n → (hp = false ∨ taken.contains n = false) →
        Material.setNumber m hp taken (PyValue.int n)
          = ({ m with mutated := true, number := n }, none)) := by
  refine ⟨fun d => rfl, ?_, ?_, ?_⟩
  · intro n hn
    simp [Material.setNumber, hn]
  · intro n hn hhp hc
    subst hhp
    have hmem : n ∈ taken := by simpa using hc
    simp [Material.setNumber, check_number, not_le.mpr hn, hmem]
  · intro n hn hd
    have hnn : ¬ n ≤ 0 := not_le.mpr hn
    cases hp with
    | false => simp [Material.setNumber, hnn]
    | true =>
      rcases hd with hd | hd
      · cases hd
      · have hmem : n ∉ taken := by simpa using hd
        simp [Material.setNumber, check_number, hnn, hmem]

/-- Claim C6, witness: the setter evaluated on a sample material against the
registry `{2}` for a non-positive, a conflicting and a valid number. -/
theorem c6_setter_atomic_witness :
    Material.setNumber sampleMaterial true [2] (PyValue.int 0)
      = (sampleMaterial, some (PyError.valueError "number must be > 0"))
    ∧ Material.setNumber sampleMaterial true [2] (PyValue.int 2)
      = (sampleMaterial, some PyError.numberConflictError)
    ∧ Material.setNumber sampleMaterial true [2] (PyValue.int 5)
      = ({ sampleMaterial with mutated := true, number := 5 }, none) :=
  ⟨(c6_setter_atomic sampleMaterial true [2]).2.1 0 (by norm_num),
   (c6_setter_atomic sampleMaterial true [2]).2.2.1 2 (by norm_num) rfl (by decide),
   (c6_setter_atomic sampleMaterial true [2]).2.2.2 5 (by norm_num) (Or.inr (by decide))⟩

/-- Preservation of non-negativity by the component-dict update. -/
theorem insertComp_nonneg :
    ∀ (comps : List (String × Rat)) (iso : String) (q : Rat),
      (∀ p ∈ comps, 0 ≤ p.2) → 0 ≤ q → ∀ p ∈ insertComp comps iso q, 0 ≤ p.2 := by
  intro comps
  induction comps with
  | nil =>
    intro iso q _ hq p hp
    simp only [insertComp, List.mem_singleton] at hp
    rw [hp]
    exact hq
  | cons a t ih =>
    intro iso q hc hq p hp
    have ha := hc a (List.mem_cons_self a t)
    have ht : ∀ r ∈ t, 0 ≤ r.2 := fun r hr => hc r (List.mem_cons_of_mem a hr)
    by_cases hkey : a.1 = iso
    · simp only [insertComp, if_pos hkey] at hp
      rcases List.mem_cons.mp hp with hp | hp
      · rw [hp]; exact hq
      · exact ht p hp
    · simp only [insertComp, if_neg hkey] at hp
      rcases List.mem_cons.mp hp with hp | hp
      · rw [hp]; exact ha
      · exact ih iso q ht hq p hp

/-- Invariant of the component-parsing loop: starting from components with
non-negative fractions, a successful parse only ever stores non-negative
fractions (every stored value is an absolute value). -/
theorem parse_nonneg_aux (ws : List Word) (flag : Option Bool)
    (comps : List (String × Rat)) (ps : String) :
    ∀ (res : List (String × Rat) × Option Bool × String),
      (∀ p ∈ comps, 0 ≤ p.2) →
      parseComponentsAux ws flag comps ps = Except.ok res →
      ∀ p ∈ res.1, 0 ≤ p.2 := by
  induction ws, flag, comps, ps using parseComponentsAux.induct with
  | case1 flag comps ps =>
    intro res hc h
    simp only [parseComponentsAux, Except.ok.injEq] at h
    rw [← h]
    exact hc
  | case2 w rest flag comps ps hiso =>
    intro res hc h
    simp only [parseComponentsAux, hiso, Except.ok.injEq] at h
    rw [← h]
    exact hc
  | case3 w flag comps ps iso hiso =>
    intro res hc h
    simp [parseComponentsAux, hiso] at h
  | case4 w flag comps ps iso hiso f rest2 hf =>
    intro res hc h
    simp [parseComponentsAux, hiso, hf] at h
  | case5 w comps ps iso hiso f rest2 q hf ih =>
    intro res hc h
    simp only [parseComponentsAux, hiso, hf] at h
    exact ih res (insertComp_nonneg comps iso |q| hc (abs_nonneg q)) h
  | case6 w comps ps iso hiso f rest2 q hf b hcond =>
    intro res hc h
    simp [parseComponentsAux, hiso, hf, hcond] at h
  | case7 w comps ps iso hiso f rest2 q hf b hcond ih =>
    intro res hc h
    simp only [parseComponentsAux, hiso, hf, if_neg hcond] at h
    exact ih res (insertComp_nonneg comps iso |q| hc (abs_nonneg q)) h

/-- Claim C7: every component fraction stored by a successful material parse
is non-negative (the absolute value of the parsed fraction); the first parsed
fraction fixes the sign convention (atom exactly when strictly positive); and
a later fraction strictly on the opposite side of zero makes the parse fail
with `MalformedInputError`, so no material is produced. -/
theorem c7_fraction_sign :
    (∀ (ws : List Word) (res : List (String × Rat) × Option Bool × String),
        parseMaterialComponents ws = Except.ok res → ∀ p ∈ res.1, 0 ≤ p.2)
    ∧ (∀ (w f : Word) (rest : List Word) (iso : String) (q : Rat)
          (comps : List (String × Rat)) (ps : String),
        w.asIsotope = some iso → f.asFloat = some q →
        parseComponentsAux (w :: f :: rest) none comps ps
          = parseComponentsAux rest (some (decide (0 < q))) (insertComp comps iso |q|) ps)
    ∧ (∀ (w f : Word) (rest : List Word) (iso : String) (q : Rat) (b : Bool)
          (comps : List (String × Rat)) (ps : String),
        w.asIsotope = some iso → f.asFloat = some q →
        ((0 < q ∧ b = false) ∨ (q < 0 ∧ b = true)) →
        parseComponentsAux (w :: f :: rest) (some b) comps ps
          = Except.error (PyError.malformedInputError
              "Material definitons cannot use atom and mass fraction at the same time")) := by
  refine ⟨?_, ?_, ?_⟩
  · intro ws res h
    exact parse_nonneg_aux ws none [] "" res (by simp) h
  · intro w f rest iso q comps ps hiso hf
    simp [parseComponentsAux, hiso, hf]
  · intro w f rest iso q b comps ps hiso hf hcond
    simp [parseComponentsAux, hiso, hf, hcond]

/-- Claim C7, witness: a positive fraction under the mass convention is
rejected, and the fractions stored by a successful parse are non-negative. -/
theorem c7_fraction_sign_witness :
    parseComponentsAux [mkIso "1001", mkNum 3] (some false) [] ""
      = Except.error (PyError.malformedInputError
          "Material definitons cannot use atom and mass fraction at the same time")
    ∧ ∀ p ∈ ([("1001", (3:Rat))] : List (String × Rat)), 0 ≤ p.2 := by
  constructor
  · exact c7_fraction_sign.2.2 (mkIso "1001") (mkNum 3) [] "1001" 3 false [] ""
      rfl rfl (Or.inl ⟨by norm_num, rfl⟩)
  · exact fun p hp => c7_fraction_sign.1 [mkIso "1001", mkNum 3]
      ([("1001", 3)], some true, "") (by norm_num [parseMaterialComponents,
        parseComponentsAux, mkIso, mkNum, insertComp]) p hp

/-- Claim C8: serializing a material with an empty component mapping fails,
for every version and whether or not the material is mutated, with the
illegal-state error naming the material number (the `IllegalState` raised by
`validate` is the `ValidationError` of the specification taxonomy). -/
theorem c8_empty_material_serialize (m : Material) (v : Nat × Nat)
    (h : m.components = []) :
    Material.format_for_mcnp_input m v
      = Except.error (PyError.illegalState
          ("Material: " ++ toString m.number ++ " does not have any components defined.")) := by
  simp [Material.format_for_mcnp_input, Material.validate, h]

/-- Claim C8, witness: the component-free sample material fails to serialize. -/
theorem c8_empty_material_serialize_witness :
    emptyMaterial.components = []
    ∧ Material.format_for_mcnp_input emptyMaterial (6, 2)
      = Except.error (PyError.illegalState
          ("Material: " ++ toString emptyMaterial.number
            ++ " does not have any components defined.")) :=
  ⟨rfl, c8_empty_material_serialize emptyMaterial (6, 2) rfl⟩

/-- Claim C9: material equality holds exactly when the hashes are equal, and
the hash reads only the current number and the key-sorted component sequence,
so two materials agreeing on those two fields compare equal whatever their
atom-fraction flag, parameter string, original number or thermal-scattering
law. -/
theorem c9_hash_eq (m1 m2 : Material) :
    (Material.pyEq m1 m2 = true ↔ Material.pyHash m1 = Material.pyHash m2)
    ∧ (m1.number = m2.number →
        sortComps m1.components = sortComps m2.components →
        Material.pyEq m1 m2 = true) := by
  constructor
  · simp [Material.pyEq]
  · intro hn hc
    simp [Material.pyEq, Material.pyHash, hn, hc]

/-- Claim C9, witness: two materials differing only in the atom-fraction
flag, the parameter string, the original number and the thermal-scattering
law compare equal. -/
theorem c9_hash_eq_witness :
    Material.pyEq ⟨3, 3, true, "", [("1001", 2)], none, false, [], []⟩
      ⟨3, 99, false, "gas=1", [("1001", 2)], some ["mt3 lwtr"], true, ["m3 1001 2"], []⟩
      = true :=
  (c9_hash_eq ⟨3, 3, true, "", [("1001", 2)], none, false, [], []⟩
    ⟨3, 99, false, "gas=1", [("1001", 2)], some ["mt3 lwtr"], true, ["m3 1001 2"], []⟩).2
    rfl rfl

/-- Claim C10: a material whose first parsed fraction is exactly 0 is
classified as mass fraction (the atom branch needs a strictly positive first
fraction); after it, a strictly positive fraction raises
`MalformedInputError` while a strictly negative one is accepted and stored as
its absolute value. -/
theorem c10_zero_first_fraction (q r : Rat) (hq : 0 < q) (hr : r < 0) :
    parseMaterialComponents [mkIso "1001", mkNum 0, mkIso "8016", mkNum q]
      = Except.error (PyError.malformedInputError
          "Material definitons cannot use atom and mass fraction at the same time")
    ∧ parseMaterialComponents [mkIso "1001", mkNum 0, mkIso "8016", mkNum r]
      = Except.ok ([("1001", 0), ("8016", |r|)], some false, "") := by
  have hne : ("1001" : String) ≠ "8016" := by decide
  have hstep : ∀ (z : Rat),
      parseMaterialComponents [mkIso "1001", mkNum 0, mkIso "8016", mkNum z]
        = parseComponentsAux [mkIso "8016", mkNum z] (some false) [("1001", 0)] "" := by
    intro z
    simp [parseMaterialComponents, parseComponentsAux, mkIso, mkNum, insertComp]
  constructor
  · rw [hstep q]
    simp [parseComponentsAux, mkIso, mkNum, hq]
  · rw [hstep r]
    have hcond : ¬ ((0 < r ∧ false = false) ∨ (r < 0 ∧ false = true)) := by
      rintro (⟨h1, _⟩ | ⟨_, h2⟩)
      · exact absurd h1 (not_lt.mpr hr.le)
      · cases h2
    simp [parseComponentsAux, mkIso, mkNum, insertComp, hcond, hne, hr.le]

/-- Claim C10, witness: the zero-first-fraction behavior evaluated at the
fractions 1 and -1. -/
theorem c10_zero_first_fraction_witness :
    parseMaterialComponents [mkIso "1001", mkNum 0, mkIso "8016", mkNum 1]
      = Except.error (PyError.malformedInputError
          "Material definitons cannot use atom and mass fraction at the same time")
    ∧ parseMaterialComponents [mkIso "1001", mkNum 0, mkIso "8016", mkNum (-1)]
      = Except.ok ([("1001", 0), ("8016", 1)], some false, "") := by
  refine ⟨(c10_zero_first_fraction 1 (-1) (by norm_num) (by norm_num)).1, ?_⟩
  have h2 := (c10_zero_first_fraction 1 (-1) (by norm_num) (by norm_num)).2
  simpa using h2
